import Mathlib

/-!
Shallow embedding of the order-lifecycle and inventory logic of the uni10
storefront backend (Express/Mongoose REST API).

Sources embedded here:
- `src/server/routes/orders.js` — order creation with inventory decrement,
  status update, cancellation, return request/approve/reject, admin update.
- `src/server/routes/admin.js` — invoice generation (`POST /invoices/generate`).

Modelling conventions:
- The product collection (Mongo, keyed by `_id`) is a finite map
  `Store := Nat → Option Product`; `Product.findById pid` is `ps pid` and
  `product.save()` is a pointwise override of the map.
- Each route handler becomes a pure function from the fetched document and
  the request parameters to a response value paired with the persisted
  document(s).  An error response returned before any `save()` leaves the
  documents unchanged, exactly as in the source.
- JS `Number(x || d)` defaulting is made explicit (`reqQty`), and JS string
  truthiness (`if (reason)`) becomes an emptiness test.
- Fire-and-forget e-mail side effects (`sendStatusUpdateEmail`, …) are not
  modelled: they mutate no order or product state in the source.
-/

namespace Uni10

/-- One entry of a product's per-size inventory (`product.sizeInventory`). -/
structure SizeEntry where
  code : String
  qty : Nat
deriving DecidableEq

/-- A product document, as used by the order-creation inventory loop:
`trackInventoryBySize` selects per-size counters, otherwise `stock` is the
scalar counter (`product.stock || 0` is total, so `stock : Nat` with the
missing field read as 0). -/
structure Product where
  pid : Nat
  title : String
  trackInventoryBySize : Bool
  sizeInventory : List SizeEntry
  stock : Nat
deriving DecidableEq

/-- The product collection keyed by id: `Product.findById` is application,
`product.save()` is pointwise override. -/
def Store : Type := Nat → Option Product

/-- A line item of an order-creation request body.  `productId` models
`item.id || item.productId` (none = item not referencing a product);
`size` models `item.size` with `none` for absent/empty (JS falsy);
`qty` models `item.qty` with 0 for absent. -/
structure Item where
  productId : Option Nat
  size : Option String
  qty : Nat
  price : Int
deriving DecidableEq

/-- The requested quantity of a line item: `Number(item.qty || 1)` — a zero
or absent qty is treated as 1 by the inventory loop. -/
def reqQty (it : Item) : Nat :=
  if it.qty = 0 then 1 else it.qty

/-- An order document.  `discount`, `shipping` and `tax` are present on the
rendered invoice (`GET /orders/:id/invoice`).  Modelled from the spec: the
Order schema file (`server/models/Order.js`) is not part of the sources; per
spec §3 the financial fields not supplied by the creation route default to 0
and `returnStatus` defaults to `"None"`. -/
structure Order where
  userId : Option Nat
  name : String
  phone : String
  address : String
  city : String
  state : String
  pincode : String
  paymentMethod : String
  items : List Item
  total : Int
  status : String
  returnStatus : String
  returnReason : String
  cancellationReason : String
  rejectionReason : String
  trackingNumber : String
  discount : Int
  shipping : Int
  tax : Int
deriving DecidableEq

/-- `const ALLOWED_STATUSES = ['pending', 'paid', 'shipped', 'delivered', 'cancelled']`. -/
def ALLOWED_STATUSES : List String :=
  ["pending", "paid", "shipped", "delivered", "cancelled"]

/-- The statuses in which `POST /orders/:id/cancel` is allowed
(`cancellableStatuses` in the source). -/
def CANCELLABLE_STATUSES : List String :=
  ["pending", "cod_pending", "pending_verification"]

/-- The return-status values accepted by `PUT /orders/:id/admin-update`. -/
def RETURN_STATUSES : List String :=
  ["None", "Pending", "Approved", "Rejected"]

/-- Generic route response: `ok` = HTTP 200 `{ok:true}`, `badRequest` =
HTTP 400, `forbidden` = HTTP 403.  The message distinguishes the
validation / invalid-state flavours exactly as the source does. -/
inductive HResp where
  | ok (message : String)
  | badRequest (message : String)
  | forbidden
deriving DecidableEq

/-- JS `String.prototype.trim()`: strip whitespace from both ends
(defined over the character list so that it evaluates). -/
def jsTrim (s : String) : String :=
  String.mk (((s.data.dropWhile Char.isWhitespace).reverse.dropWhile Char.isWhitespace).reverse)

/-! ## Return request lifecycle (`orders.js` lines 273–306, 556–607) -/

/-- `POST /orders/:id/request-return` for an existing order `o` fetched by
id, authenticated actor `actorId`.  Checks, in source order: non-empty
trimmed reason, ownership, `status === 'delivered'`; then stores the trimmed
reason and sets `returnStatus = 'Pending'`. -/
def requestReturn (o : Order) (actorId : Nat) (reason : String) : HResp × Order :=
  if jsTrim reason = "" then
    (.badRequest "Return reason is required", o)
  else if o.userId ≠ some actorId then
    (.forbidden, o)
  else if o.status ≠ "delivered" then
    (.badRequest "Return can only be requested for delivered orders", o)
  else
    (.ok "Return request submitted",
      { o with returnReason := jsTrim reason, returnStatus := "Pending" })

/-- `POST /orders/:id/approve-return` (admin) for an existing order. -/
def approveReturn (o : Order) : HResp × Order :=
  if o.returnStatus ≠ "Pending" then
    (.badRequest "Return request is not pending", o)
  else
    (.ok "Return request approved", { o with returnStatus := "Approved" })

/-- `POST /orders/:id/reject-return` (admin) for an existing order; the
optional reason is recorded only when truthy (non-empty). -/
def rejectReturn (o : Order) (reason : String) : HResp × Order :=
  if o.returnStatus ≠ "Pending" then
    (.badRequest "Return request is not pending", o)
  else
    (.ok "Return request rejected",
      { o with returnStatus := "Rejected",
               rejectionReason := if reason ≠ "" then reason else o.rejectionReason })

/-! ## Status update and cancellation (`orders.js` lines 163–241) -/

/-- `PUT /orders/:id/status` (admin) for an existing order.  A falsy status
(absent or empty) is "Missing status"; a status outside `ALLOWED_STATUSES`
is "Invalid status"; otherwise the status is set unconditionally, with no
ordering constraint against the previous status. -/
def setStatus (o : Order) (status : String) : HResp × Order :=
  if status = "" then
    (.badRequest "Missing status", o)
  else if ALLOWED_STATUSES.contains status = false then
    (.badRequest "Invalid status", o)
  else
    (.ok "", { o with status := status })

/-- `POST /orders/:id/cancel` for an existing order, actor `(actorId, role)`.
The handler never touches the product collection, so the store `ps` is
passed through unchanged (no restock). -/
def cancelOrder (ps : Store) (o : Order) (actorId : Nat) (role : String)
    (reason : String) : HResp × Order × Store :=
  if o.userId ≠ some actorId ∧ role ≠ "admin" then
    (.forbidden, o, ps)
  else if CANCELLABLE_STATUSES.contains o.status = false then
    (.badRequest "Order cannot be cancelled in current status", o, ps)
  else
    (.ok "",
      { o with status := "cancelled",
               cancellationReason := if reason ≠ "" then reason else o.cancellationReason },
      ps)

/-! ## Admin combined update (`orders.js` lines 309–357) -/

/-- `PUT /orders/:id/admin-update` (admin) for an existing order: each of
status / trackingNumber / returnStatus is applied independently when truthy
and in its allowed set; the document is then saved and 200 returned. -/
def adminUpdate (o : Order) (status trackingNumber returnStatus : Option String) :
    HResp × Order :=
  let o1 := match status with
    | some s => if ALLOWED_STATUSES.contains s then { o with status := s } else o
    | none => o
  let o2 := match trackingNumber with
    | some t => if t ≠ "" then { o1 with trackingNumber := jsTrim t } else o1
    | none => o1
  let o3 := match returnStatus with
    | some r => if RETURN_STATUSES.contains r then { o2 with returnStatus := r } else o2
    | none => o2
  (.ok "Order updated successfully", o3)

/-! ## Invoice issuance (`admin.js` lines 148–191, `POST /invoices/generate`) -/

/-- A calendar date; the source derives both the `YYYYMMDD` string and the
same-day count from the single `new Date()` taken at issuance time. -/
structure DateD where
  y : Nat
  m : Nat
  d : Nat
deriving DecidableEq

/-- `String(n).padStart(w, '0')`: left-pad the decimal representation with
zeros up to width `w` (longer representations are kept unchanged). -/
def padNum (w n : Nat) : String :=
  let s := toString n
  String.mk (List.replicate (w - s.length) '0') ++ s

/-- The date as `YYYYMMDD`: `now.toISOString().slice(0, 10)` with the
dashes removed. -/
def dateStr (t : DateD) : String :=
  padNum 4 t.y ++ padNum 2 t.m ++ padNum 2 t.d

/-- An invoice document.  `issuedOn` is the calendar day of `createdAt`,
which the same-day count filters on. -/
structure Invoice where
  orderId : Nat
  invoiceNo : String
  issuedOn : DateD
  status : String
deriving DecidableEq

/-- The state touched by invoice generation: the set of existing order ids
and the invoice collection (in creation order, so `countDocuments` over a
day is a filter over the list).  The `order.invoiceId` back-link written by
the route does not affect any claim and is not modelled. -/
structure InvState where
  orderIds : List Nat
  invoices : List Invoice
deriving DecidableEq

/-- Responses of `POST /admin/invoices/generate`: 200 with the invoiceNo,
400 for a missing orderId, 404 for an unknown order. -/
inductive InvResp where
  | okNo (invoiceNo : String)
  | badRequest (message : String)
  | notFound (message : String)
deriving DecidableEq

/-- `POST /admin/invoices/generate` with body `{orderId}` on day `today`:
idempotent per order (an existing invoice is returned unchanged); otherwise
the new number is `INV-YYYYMMDD-NNNN` with `NNNN = countToday + 1` padded
to 4 digits, and the invoice is persisted. -/
def invoicesGenerate (st : InvState) (orderId : Option Nat) (today : DateD) :
    InvResp × InvState :=
  match orderId with
  | none => (.badRequest "Missing orderId", st)
  | some oid =>
    if st.orderIds.contains oid then
      match st.invoices.find? (fun i => i.orderId == oid) with
      | some inv => (.okNo inv.invoiceNo, st)
      | none =>
        let countToday := (st.invoices.filter (fun i => i.issuedOn == today)).length
        let no := "INV-" ++ dateStr today ++ "-" ++ padNum 4 (countToday + 1)
        (.okNo no,
          { st with invoices := st.invoices ++
              [{ orderId := oid, invoiceNo := no, issuedOn := today, status := "issued" }] })
    else (.notFound "Order not found", st)

/-! ## Order creation (`orders.js` lines 11–112, `POST /orders`) -/

/-- The inventory-conflict payload of the 409 response:
`{ message, itemId, availableQty }`. -/
structure StockErr where
  message : String
  itemId : Option Nat
  availableQty : Nat
deriving DecidableEq

/-- `product.save()`: override the collection at `pid`. -/
def updateStore (ps : Store) (pid : Nat) (p : Product) : Store :=
  fun n => if n = pid then some p else ps n

/-- Outcome of locating `item.size` in `product.sizeInventory` and
decrementing it: the size may be absent (`findIndex === -1`, a no-op), have
insufficient quantity (reporting the available count), or be decremented at
its first matching entry. -/
inductive SizeStep where
  | absent
  | insufficient (available : Nat)
  | updated (inv : List SizeEntry)
deriving DecidableEq

/-- Find the first entry with code `sz` and decrement it by `req`,
mirroring `findIndex` + in-place mutation of `sizeInventory[idx].qty`. -/
def decrSize : List SizeEntry → String → Nat → SizeStep
  | [], _, _ => .absent
  | e :: rest, sz, req =>
    if e.code = sz then
      if e.qty < req then .insufficient e.qty
      else .updated ({ e with qty := e.qty - req } :: rest)
    else
      match decrSize rest sz req with
      | .absent => .absent
      | .insufficient a => .insufficient a
      | .updated rest2 => .updated (e :: rest2)

/-- The scalar-stock branch of the inventory loop: reject when
`currentStock < requestedQty`, else decrement `product.stock` and save. -/
def scalarStep (ps : Store) (pid : Nat) (p : Product) (req : Nat) :
    Except StockErr Store :=
  if p.stock < req then
    .error { message := "Insufficient stock for " ++ p.title,
             itemId := some pid, availableQty := p.stock }
  else
    .ok (updateStore ps pid { p with stock := p.stock - req })

/-- One iteration of the inventory loop for a single line item: items not
referencing a product, unknown products, per-size products without a
matching size (or without a given size) are no-ops; otherwise the per-size
or scalar counter is checked and decremented. -/
def stepItem (ps : Store) (it : Item) : Except StockErr Store :=
  match it.productId with
  | none => .ok ps
  | some pid =>
    match ps pid with
    | none => .ok ps
    | some p =>
      match it.size with
      | some sz =>
        if p.trackInventoryBySize then
          match decrSize p.sizeInventory sz (reqQty it) with
          | .absent => .ok ps
          | .insufficient avail =>
            .error { message := "Insufficient stock for " ++ p.title ++ " size " ++ sz,
                     itemId := some pid, availableQty := avail }
          | .updated inv => .ok (updateStore ps pid { p with sizeInventory := inv })
        else scalarStep ps pid p (reqQty it)
      | none =>
        if p.trackInventoryBySize then .ok ps
        else scalarStep ps pid p (reqQty it)

/-- The whole inventory loop: on the first failing item it stops and reports
the error, keeping every decrement already saved for earlier items (the
store at that point); on success it returns the fully decremented store. -/
def processItems : Store → List Item → Option StockErr × Store
  | ps, [] => (none, ps)
  | ps, it :: rest =>
    match stepItem ps it with
    | .error e => (some e, ps)
    | .ok ps2 => processItems ps2 rest

/-- The request body of `POST /orders` (after the `body.x || body.customer?.x`
coalescing).  `total` is `none` when `typeof body.total !== 'number'`. -/
structure CreateBody where
  name : String
  phone : String
  address : String
  city : String
  state : String
  pincode : String
  items : List Item
  total : Option Int
  status : Option String
  paymentMethod : String
deriving DecidableEq

/-- `/^\d{4,8}$/.test(String(pincode))`. -/
def pinOk (s : String) : Bool :=
  decide (4 ≤ s.length) && decide (s.length ≤ 8) && s.data.all Char.isDigit

/-- `items.reduce((sum, it) => sum + Number(it.price || 0) * Number(it.qty || 0), 0)`. -/
def computedTotal (items : List Item) : Int :=
  items.foldl (fun sum it => sum + it.price * (it.qty : Int)) 0

/-- Responses of `POST /orders`: 400 validation, 409 insufficient stock
(with `itemId` and `availableQty`), 200 with the created order. -/
inductive CreateRes where
  | badRequest (message : String)
  | conflict (message : String) (itemId : Option Nat) (availableQty : Nat)
  | created (order : Order)
deriving DecidableEq

/-- `POST /orders`: validation (non-empty items; city/state/pincode present;
pincode pattern), server-side total unless a positive numeric total was
supplied, status defaulting to `pending` unless an allowed status was
supplied, then the inventory loop — whose partial decrements persist even
when it fails — and finally the order document (appended to `orders`) on
success.  Financial fields not set by the route take the schema defaults
(0, see `Order`). -/
def createOrder (ps : Store) (orders : List Order) (userId : Option Nat)
    (body : CreateBody) : CreateRes × Store × List Order :=
  if body.items.isEmpty then
    (.badRequest "No items", ps, orders)
  else if body.city = "" ∨ body.state = "" ∨ body.pincode = "" then
    (.badRequest "City, state and pincode are required", ps, orders)
  else if pinOk body.pincode = false then
    (.badRequest "Invalid pincode", ps, orders)
  else
    let computed := computedTotal body.items
    let total : Int := match body.total with
      | some t => if 0 < t then t else computed
      | none => computed
    let status : String := match body.status with
      | some s => if ALLOWED_STATUSES.contains s then s else "pending"
      | none => "pending"
    match processItems ps body.items with
    | (some e, ps2) => (.conflict e.message e.itemId e.availableQty, ps2, orders)
    | (none, ps2) =>
      let doc : Order :=
        { userId := userId, name := body.name, phone := body.phone,
          address := body.address, city := body.city, state := body.state,
          pincode := body.pincode, paymentMethod := body.paymentMethod,
          items := body.items, total := total, status := status,
          returnStatus := "None", returnReason := "", cancellationReason := "",
          rejectionReason := "", trackingNumber := "",
          discount := 0, shipping := 0, tax := 0 }
      (.created doc, ps2, orders ++ [doc])

/-- Sum of requested quantities (`reqQty`, i.e. `Number(item.qty || 1)`) of
the items referencing product `pid`. -/
def sumReq : List Item → Nat → Nat
  | [], _ => 0
  | it :: rest, pid =>
    (if it.productId = some pid then reqQty it else 0) + sumReq rest pid

/-- Sum of the raw `qty` fields of the items referencing product `pid`
(the "sum of quantities" in the spec's wording, without the `|| 1`
defaulting). -/
def sumQty : List Item → Nat → Nat
  | [], _ => 0
  | it :: rest, pid =>
    (if it.productId = some pid then it.qty else 0) + sumQty rest pid

/-! ## Concrete fixtures used by witnesses and counterexamples -/

/-- A concrete order owned by user 7, in the default freshly-created shape. -/
def baseOrder : Order :=
  { userId := some 7, name := "A", phone := "9", address := "x", city := "Delhi",
    state := "DL", pincode := "110011", paymentMethod := "COD", items := [],
    total := 0, status := "pending", returnStatus := "None", returnReason := "",
    cancellationReason := "", rejectionReason := "", trackingNumber := "",
    discount := 0, shipping := 0, tax := 0 }

/-! ## C4: is `Approved` terminal for `requestReturn`? -/

/-- C4 counterexample: the claim says a `requestReturn` on an order whose
`returnStatus` is `Approved` is rejected with InvalidState and leaves
`returnStatus = Approved`.  In the code, `POST /orders/:id/request-return`
checks only `status === 'delivered'` and never inspects `returnStatus`: on a
delivered order with `returnStatus = Approved`, the owner's request with
reason "damaged" succeeds and resets `returnStatus` to `Pending`. -/
theorem c4_approved_terminal_counterexample :
    (requestReturn { baseOrder with status := "delivered", returnStatus := "Approved" }
        7 "damaged").1 = .ok "Return request submitted" ∧
    (requestReturn { baseOrder with status := "delivered", returnStatus := "Approved" }
        7 "damaged").2.returnStatus = "Pending" := by
  constructor <;> rfl

/-- C4 amended: `Approved` is not terminal with respect to `requestReturn`.
For every delivered order with `returnStatus = Approved`, a `requestReturn`
by the owner with a non-empty (post-trim) reason succeeds and resets
`returnStatus` to `Pending`, storing the new trimmed reason. -/
theorem c4_approved_not_terminal (o : Order) (actorId : Nat) (reason : String)
    (hst : o.status = "delivered") (_hrs : o.returnStatus = "Approved")
    (hown : o.userId = some actorId) (hr : jsTrim reason ≠ "") :
    requestReturn o actorId reason =
      (.ok "Return request submitted",
        { o with returnReason := jsTrim reason, returnStatus := "Pending" }) := by
  simp [requestReturn, hst, hown, hr]

/-- C4 witness: the amended theorem applied to the concrete Approved order. -/
theorem c4_witness :
    requestReturn { baseOrder with status := "delivered", returnStatus := "Approved" }
        7 "damaged" =
      (.ok "Return request submitted",
        { baseOrder with status := "delivered", returnReason := jsTrim "damaged",
                         returnStatus := "Pending" }) := by
  exact c4_approved_not_terminal
    { baseOrder with status := "delivered", returnStatus := "Approved" }
    7 "damaged" rfl rfl rfl (by decide)

/-! ## C5: approve/reject legal exactly in `Pending` -/

/-- C5: for every existing order, `approveReturn` and `rejectReturn` succeed
exactly when `returnStatus = 'Pending'` — transitioning to `Approved` and
`Rejected` respectively (the rejection reason being recorded when non-empty)
— and otherwise fail with the 400 invalid-state response, leaving the order
unchanged. -/
theorem c5_approve_reject_pending_only (o : Order) (reason : String) :
    (o.returnStatus = "Pending" →
      approveReturn o = (.ok "Return request approved", { o with returnStatus := "Approved" }) ∧
      rejectReturn o reason = (.ok "Return request rejected",
        { o with returnStatus := "Rejected",
                 rejectionReason := if reason ≠ "" then reason else o.rejectionReason })) ∧
    (o.returnStatus ≠ "Pending" →
      approveReturn o = (.badRequest "Return request is not pending", o) ∧
      rejectReturn o reason = (.badRequest "Return request is not pending", o)) := by
  constructor <;> intro h <;>
    constructor <;> simp [approveReturn, rejectReturn, h]

/-- C5 witness: a pending order is approved; a non-pending one is refused. -/
theorem c5_witness :
    approveReturn { baseOrder with returnStatus := "Pending" } =
      (.ok "Return request approved", { baseOrder with returnStatus := "Approved" }) ∧
    approveReturn baseOrder = (.badRequest "Return request is not pending", baseOrder) := by
  exact ⟨((c5_approve_reject_pending_only { baseOrder with returnStatus := "Pending" } "").1 rfl).1,
         ((c5_approve_reject_pending_only baseOrder "").2 (by decide)).1⟩

/-! ## C6: requestReturn success/failure conditions -/

/-- C6: for every existing order, `requestReturn` succeeds exactly when the
trimmed reason is non-empty, the actor owns the order, and the status is
`delivered`; on success it sets `returnStatus = Pending` and stores the
trimmed reason.  The failure responses follow the source's check order:
empty reason → 400 validation; then non-owner → 403; then non-delivered →
400 invalid state — each leaving the order unchanged. -/
theorem c6_request_return_conditions (o : Order) (actorId : Nat) (reason : String) :
    ((requestReturn o actorId reason).1 = .ok "Return request submitted" ↔
      jsTrim reason ≠ "" ∧ o.userId = some actorId ∧ o.status = "delivered") ∧
    (jsTrim reason = "" →
      requestReturn o actorId reason = (.badRequest "Return reason is required", o)) ∧
    (jsTrim reason ≠ "" → o.userId ≠ some actorId →
      requestReturn o actorId reason = (.forbidden, o)) ∧
    (jsTrim reason ≠ "" → o.userId = some actorId → o.status ≠ "delivered" →
      requestReturn o actorId reason =
        (.badRequest "Return can only be requested for delivered orders", o)) ∧
    (jsTrim reason ≠ "" → o.userId = some actorId → o.status = "delivered" →
      requestReturn o actorId reason =
        (.ok "Return request submitted",
          { o with returnReason := jsTrim reason, returnStatus := "Pending" })) := by
  by_cases h1 : jsTrim reason = "" <;>
    by_cases h2 : o.userId = some actorId <;>
      by_cases h3 : o.status = "delivered" <;>
        simp [requestReturn, h1, h2, h3]

/-- C6 witness: a delivered owned order with reason "damaged" succeeds; a
shipped one is refused with the invalid-state message; an empty reason is
refused with the validation message. -/
theorem c6_witness :
    requestReturn { baseOrder with status := "delivered" } 7 "damaged" =
      (.ok "Return request submitted",
        { baseOrder with status := "delivered", returnReason := jsTrim "damaged",
                         returnStatus := "Pending" }) ∧
    requestReturn { baseOrder with status := "shipped" } 7 "damaged" =
      (.badRequest "Return can only be requested for delivered orders",
        { baseOrder with status := "shipped" }) ∧
    requestReturn baseOrder 7 "   " =
      (.badRequest "Return reason is required", baseOrder) := by
  refine ⟨?_, ?_, ?_⟩
  · exact (c6_request_return_conditions { baseOrder with status := "delivered" } 7
      "damaged").2.2.2.2 (by decide) rfl rfl
  · exact (c6_request_return_conditions { baseOrder with status := "shipped" } 7
      "damaged").2.2.2.1 (by decide) rfl (by decide)
  · exact (c6_request_return_conditions baseOrder 7 "   ").2.1 (by decide)

/-! ## C8: cancellation conditions -/

/-- C8: for every existing order, `cancelOrder` gives 403 to an actor who is
neither the owner nor an admin; for an owner or admin it succeeds exactly
when the status is in {pending, cod_pending, pending_verification}, setting
`status = cancelled` and recording the non-empty reason, and otherwise fails
with the 400 invalid-state response leaving the order unchanged.  In all
cases the product store is returned untouched: cancellation never restocks
inventory. -/
theorem c8_cancel_conditions (ps : Store) (o : Order) (actorId : Nat)
    (role : String) (reason : String) :
    (o.userId ≠ some actorId → role ≠ "admin" →
      cancelOrder ps o actorId role reason = (.forbidden, o, ps)) ∧
    ((o.userId = some actorId ∨ role = "admin") →
      o.status ∉ CANCELLABLE_STATUSES →
      cancelOrder ps o actorId role reason =
        (.badRequest "Order cannot be cancelled in current status", o, ps)) ∧
    ((o.userId = some actorId ∨ role = "admin") →
      o.status ∈ CANCELLABLE_STATUSES →
      cancelOrder ps o actorId role reason =
        (.ok "",
          { o with status := "cancelled",
                   cancellationReason := if reason ≠ "" then reason else o.cancellationReason },
          ps)) := by
  refine ⟨fun h1 h2 => ?_, fun h hc => ?_, fun h hc => ?_⟩
  · simp [cancelOrder, h1, h2]
  · have hng : ¬(o.userId ≠ some actorId ∧ role ≠ "admin") := by tauto
    simp [cancelOrder, hng, hc]
  · have hng : ¬(o.userId ≠ some actorId ∧ role ≠ "admin") := by tauto
    simp [cancelOrder, hng, hc]

/-- C8 witness: the owner cancels a pending order (store untouched); a
shipped order cannot be cancelled (scenario E); a stranger is forbidden. -/
theorem c8_witness :
    cancelOrder (fun _ => none) baseOrder 7 "user" "changed mind" =
      (.ok "", { baseOrder with status := "cancelled", cancellationReason := "changed mind" },
        fun _ => none) ∧
    cancelOrder (fun _ => none) { baseOrder with status := "shipped" } 7 "user" "" =
      (.badRequest "Order cannot be cancelled in current status",
        { baseOrder with status := "shipped" }, fun _ => none) ∧
    cancelOrder (fun _ => none) baseOrder 8 "user" "" =
      (.forbidden, baseOrder, fun _ => none) := by
  refine ⟨?_, ?_, ?_⟩
  · have h := (c8_cancel_conditions (fun _ => none) baseOrder 7 "user" "changed mind").2.2
      (Or.inl rfl) (by decide)
    simpa using h
  · exact (c8_cancel_conditions (fun _ => none) { baseOrder with status := "shipped" }
      7 "user" "").2.1 (Or.inl rfl) (by decide)
  · exact (c8_cancel_conditions (fun _ => none) baseOrder 8 "user" "").1 (by decide) (by decide)

/-! ## C9: setStatus validation and unconstrained transitions -/

/-- C9: for every existing order and every supplied (non-empty) `newStatus`,
`setStatus` rejects a value outside {pending, paid, shipped, delivered,
cancelled} with the 400 "Invalid status" response and the order unchanged,
and accepts any member of that set regardless of the order's previous
status, overwriting it unconditionally. -/
theorem c9_set_status_validation (o : Order) (status : String) (hne : status ≠ "") :
    (status ∉ ALLOWED_STATUSES →
      setStatus o status = (.badRequest "Invalid status", o)) ∧
    (status ∈ ALLOWED_STATUSES →
      setStatus o status = (.ok "", { o with status := status })) := by
  constructor <;> intro h <;> simp [setStatus, hne, h]

/-- C9 witness: a delivered order may go straight back to `pending` (no
monotonicity), and an unknown status is rejected unchanged. -/
theorem c9_witness :
    setStatus { baseOrder with status := "delivered" } "pending" =
      (.ok "", { baseOrder with status := "pending" }) ∧
    setStatus baseOrder "refunded" = (.badRequest "Invalid status", baseOrder) := by
  constructor
  · have h := (c9_set_status_validation { baseOrder with status := "delivered" }
      "pending" (by decide)).2 (by decide)
    simpa using h
  · exact (c9_set_status_validation baseOrder "refunded" (by decide)).1 (by decide)

/-! ## C10: admin-update sets returnStatus unconditionally -/

/-- C10: `PUT /orders/:id/admin-update` applies any supplied `returnStatus`
in {None, Pending, Approved, Rejected} unconditionally: for every order —
whatever its current `returnStatus` and whether or not its `status` is
`delivered` — and any accompanying status/trackingNumber fields, the saved
order carries the supplied value, bypassing the Pending-only guard of
approve/reject and the delivered-only guard of requestReturn. -/
theorem c10_admin_update_return_status (o : Order)
    (status trackingNumber : Option String) (r : String)
    (hr : r ∈ RETURN_STATUSES) :
    (adminUpdate o status trackingNumber (some r)).2.returnStatus = r ∧
    (adminUpdate o status trackingNumber (some r)).1 = .ok "Order updated successfully" := by
  constructor <;> simp [adminUpdate, hr]

/-- C10 witness: a non-delivered order with `returnStatus = None` is forced
straight to `Approved` by admin-update. -/
theorem c10_witness :
    (adminUpdate baseOrder none none (some "Approved")).2.returnStatus = "Approved" := by
  exact (c10_admin_update_return_status baseOrder none none "Approved" (by decide)).1

/-! ## C7: invoice idempotence and numbering -/

/-- Appending one element to a list in which `find?` fails locates the new
element exactly when it satisfies the predicate. -/
theorem find?_append_single {α : Type} (p : α → Bool) (l : List α) (a : α)
    (h : l.find? p = none) :
    (l ++ [a]).find? p = if p a then some a else none := by
  rw [List.find?_append, h]
  cases hpa : p a <;> simp [List.find?, hpa]

/-- The invoice number assigned by a fresh issuance: `INV-{dateStr}-{NNNN}`
with `NNNN = countToday + 1` zero-padded to 4 digits. -/
def freshNo (st : InvState) (today : DateD) : String :=
  "INV-" ++ dateStr today ++ "-" ++
    padNum 4 ((st.invoices.filter (fun i => i.issuedOn == today)).length + 1)

/-- The invoice document persisted by a fresh issuance. -/
def freshInv (st : InvState) (oid : Nat) (today : DateD) : Invoice :=
  { orderId := oid, invoiceNo := freshNo st today, issuedOn := today, status := "issued" }

/-- When an invoice for the order already exists, the route returns it
unchanged and persists nothing. -/
theorem invoicesGenerate_existing (st : InvState) (oid : Nat) (today : DateD)
    (inv : Invoice) (hord : oid ∈ st.orderIds)
    (hfind : st.invoices.find? (fun i => i.orderId == oid) = some inv) :
    invoicesGenerate st (some oid) today = (.okNo inv.invoiceNo, st) := by
  simp [invoicesGenerate, hord, hfind]

/-- When no invoice for the order exists, the route returns the fresh
sequential number and appends exactly the fresh invoice. -/
theorem invoicesGenerate_fresh (st : InvState) (oid : Nat) (today : DateD)
    (hord : oid ∈ st.orderIds)
    (hfind : st.invoices.find? (fun i => i.orderId == oid) = none) :
    invoicesGenerate st (some oid) today =
      (.okNo (freshNo st today),
        { st with invoices := st.invoices ++ [freshInv st oid today] }) := by
  simp [invoicesGenerate, hord, hfind, freshNo, freshInv]

/-- C7: invoice issuance is idempotent per order — for any state in which
the order exists, issuing twice on the same day returns the same
`invoiceNo` both times and the second call creates nothing (the state is
unchanged); and when no invoice exists yet for the order, the number
returned by the first call is `INV-YYYYMMDD-NNNN` with `NNNN` one more than
the count of invoices already issued that calendar day, zero-padded to
4 digits. -/
theorem c7_invoice_idempotent_numbering (st : InvState) (oid : Nat) (today : DateD)
    (hord : oid ∈ st.orderIds) :
    (∃ no, (invoicesGenerate st (some oid) today).1 = .okNo no ∧
      (invoicesGenerate (invoicesGenerate st (some oid) today).2 (some oid) today).1 =
        .okNo no) ∧
    (invoicesGenerate (invoicesGenerate st (some oid) today).2 (some oid) today).2 =
      (invoicesGenerate st (some oid) today).2 ∧
    (st.invoices.find? (fun i => i.orderId == oid) = none →
      (invoicesGenerate st (some oid) today).1 =
        .okNo ("INV-" ++ dateStr today ++ "-" ++
          padNum 4 ((st.invoices.filter (fun i => i.issuedOn == today)).length + 1))) := by
  cases hfind : st.invoices.find? (fun i => i.orderId == oid) with
  | some inv =>
    have h1 := invoicesGenerate_existing st oid today inv hord hfind
    have hstep : (invoicesGenerate st (some oid) today).2 = st := by rw [h1]
    refine ⟨⟨inv.invoiceNo, ?_, ?_⟩, ?_, ?_⟩
    · rw [h1]
    · rw [hstep, h1]
    · rw [hstep, h1]
    · intro hf
      exact Option.noConfusion hf
  | none =>
    have h1 := invoicesGenerate_fresh st oid today hord hfind
    have hfind2 : ({ st with invoices := st.invoices ++ [freshInv st oid today] } :
        InvState).invoices.find? (fun i => i.orderId == oid) = some (freshInv st oid today) := by
      show (st.invoices ++ [freshInv st oid today]).find? (fun i => i.orderId == oid) =
        some (freshInv st oid today)
      rw [find?_append_single _ _ _ hfind]
      simp [freshInv]
    have h2 := invoicesGenerate_existing
      { st with invoices := st.invoices ++ [freshInv st oid today] } oid today
      (freshInv st oid today) hord hfind2
    have hstep : (invoicesGenerate st (some oid) today).2 =
        { st with invoices := st.invoices ++ [freshInv st oid today] } := by rw [h1]
    refine ⟨⟨freshNo st today, ?_, ?_⟩, ?_, ?_⟩
    · rw [h1]
    · rw [hstep, h2]
      simp [freshInv]
    · rw [hstep, h2]
    · intro hf
      rw [h1]
      simp [freshNo]

/-- C7 witness: with no invoices yet, issuing twice for order 1 on
2026-10-11 returns `INV-20261011-0001` both times, and the second call
leaves the invoice collection unchanged. -/
theorem c7_witness :
    (∃ no,
      (invoicesGenerate { orderIds := [1], invoices := [] } (some 1) ⟨2026, 10, 11⟩).1 =
        .okNo no ∧
      (invoicesGenerate
        (invoicesGenerate { orderIds := [1], invoices := [] } (some 1) ⟨2026, 10, 11⟩).2
        (some 1) ⟨2026, 10, 11⟩).1 = .okNo no) ∧
    (invoicesGenerate { orderIds := [1], invoices := [] } (some 1) ⟨2026, 10, 11⟩).1 =
      .okNo "INV-20261011-0001" := by
  constructor
  · exact (c7_invoice_idempotent_numbering { orderIds := [1], invoices := [] } 1
      ⟨2026, 10, 11⟩ (by decide)).1
  · have h := (c7_invoice_idempotent_numbering { orderIds := [1], invoices := [] } 1
      ⟨2026, 10, 11⟩ (by decide)).2.2 rfl
    simpa using h

/-! ## Inventory-loop lemmas (towards C1 and C2) -/

/-- On an item that references a scalar-tracked product, the inventory loop
step is exactly the scalar check-and-decrement, whatever the item's size. -/
theorem stepItem_hit (ps : Store) (it : Item) (pid : Nat) (p : Product)
    (hps : ps pid = some p) (hsc : p.trackInventoryBySize = false)
    (hit : it.productId = some pid) :
    stepItem ps it = scalarStep ps pid p (reqQty it) := by
  cases hsz : it.size with
  | none => simp [stepItem, hit, hps, hsz, hsc]
  | some sz => simp [stepItem, hit, hps, hsz, hsc]

/-- A successful inventory-loop step on an item that does not reference
product `pid` leaves the stored document of `pid` unchanged. -/
theorem stepItem_other (ps : Store) (it : Item) (pid : Nat)
    (hit : it.productId ≠ some pid) :
    ∀ ps2, stepItem ps it = .ok ps2 → ps2 pid = ps pid := by
  intro ps2 h
  unfold stepItem at h
  cases hpid : it.productId with
  | none =>
    rw [hpid] at h
    dsimp only at h
    simp only [Except.ok.injEq] at h
    rw [← h]
  | some pid2 =>
    rw [hpid] at h
    dsimp only at h
    have hne : pid ≠ pid2 := fun he => hit (by rw [hpid, he])
    cases hps2 : ps pid2 with
    | none =>
      rw [hps2] at h
      dsimp only at h
      simp only [Except.ok.injEq] at h
      rw [← h]
    | some p2 =>
      rw [hps2] at h
      dsimp only at h
      cases hsz : it.size with
      | none =>
        rw [hsz] at h
        dsimp only at h
        by_cases htr : p2.trackInventoryBySize = true
        · rw [if_pos htr] at h
          simp only [Except.ok.injEq] at h
          rw [← h]
        · rw [if_neg htr] at h
          unfold scalarStep at h
          by_cases hlt : p2.stock < reqQty it
          · rw [if_pos hlt] at h
            exact Except.noConfusion h
          · rw [if_neg hlt] at h
            simp only [Except.ok.injEq] at h
            rw [← h]
            simp [updateStore, hne]
      | some sz =>
        rw [hsz] at h
        dsimp only at h
        by_cases htr : p2.trackInventoryBySize = true
        · rw [if_pos htr] at h
          cases hds : decrSize p2.sizeInventory sz (reqQty it) with
          | absent =>
            rw [hds] at h
            dsimp only at h
            simp only [Except.ok.injEq] at h
            rw [← h]
          | insufficient a =>
            rw [hds] at h
            exact Except.noConfusion h
          | updated inv =>
            rw [hds] at h
            dsimp only at h
            simp only [Except.ok.injEq] at h
            rw [← h]
            simp [updateStore, hne]
        · rw [if_neg htr] at h
          unfold scalarStep at h
          by_cases hlt : p2.stock < reqQty it
          · rw [if_pos hlt] at h
            exact Except.noConfusion h
          · rw [if_neg hlt] at h
            simp only [Except.ok.injEq] at h
            rw [← h]
            simp [updateStore, hne]

/-- An inventory-loop step that fails blaming product `pid`, when `pid` is
stored as a scalar-tracked product, must have come from the scalar branch of
that very item: the item references `pid`, the reported available quantity
is the current stock, the stock is short of the requested quantity, and the
message names the product. -/
theorem stepItem_error_scalar (ps : Store) (it : Item) (pid : Nat) (p : Product)
    (e : StockErr) (hps : ps pid = some p) (hsc : p.trackInventoryBySize = false)
    (h : stepItem ps it = .error e) (hid : e.itemId = some pid) :
    it.productId = some pid ∧ e.availableQty = p.stock ∧ p.stock < reqQty it ∧
    e.message = "Insufficient stock for " ++ p.title := by
  unfold stepItem at h
  cases hpid : it.productId with
  | none =>
    rw [hpid] at h
    dsimp only at h
    exact Except.noConfusion h
  | some pid2 =>
    rw [hpid] at h
    dsimp only at h
    cases hps2 : ps pid2 with
    | none =>
      rw [hps2] at h
      dsimp only at h
      exact Except.noConfusion h
    | some p2 =>
      rw [hps2] at h
      dsimp only at h
      cases hsz : it.size with
      | none =>
        rw [hsz] at h
        dsimp only at h
        by_cases htr : p2.trackInventoryBySize = true
        · rw [if_pos htr] at h
          exact Except.noConfusion h
        · rw [if_neg htr] at h
          unfold scalarStep at h
          by_cases hlt : p2.stock < reqQty it
          · rw [if_pos hlt] at h
            simp only [Except.error.injEq] at h
            subst h
            have hpp : pid2 = pid := by simpa using hid
            subst hpp
            rw [hps] at hps2
            injection hps2 with hpp2
            subst hpp2
            exact ⟨rfl, rfl, hlt, rfl⟩
          · rw [if_neg hlt] at h
            exact Except.noConfusion h
      | some sz =>
        rw [hsz] at h
        dsimp only at h
        by_cases htr : p2.trackInventoryBySize = true
        · rw [if_pos htr] at h
          cases hds : decrSize p2.sizeInventory sz (reqQty it) with
          | absent =>
            rw [hds] at h
            dsimp only at h
            exact Except.noConfusion h
          | insufficient a =>
            rw [hds] at h
            dsimp only at h
            simp only [Except.error.injEq] at h
            subst h
            have hpp : pid2 = pid := by simpa using hid
            subst hpp
            rw [hps] at hps2
            injection hps2 with hpp2
            subst hpp2
            rw [hsc] at htr
            exact Bool.noConfusion htr
          | updated inv =>
            rw [hds] at h
            dsimp only at h
            exact Except.noConfusion h
        · rw [if_neg htr] at h
          unfold scalarStep at h
          by_cases hlt : p2.stock < reqQty it
          · rw [if_pos hlt] at h
            simp only [Except.error.injEq] at h
            subst h
            have hpp : pid2 = pid := by simpa using hid
            subst hpp
            rw [hps] at hps2
            injection hps2 with hpp2
            subst hpp2
            exact ⟨rfl, rfl, hlt, rfl⟩
          · rw [if_neg hlt] at h
            exact Except.noConfusion h

/-- Over a whole successful inventory loop, the scalar stock of a
scalar-tracked product decreases by exactly the sum of the requested
quantities of the items referencing it (and that sum fits in the initial
stock), all other fields being kept. -/
theorem processItems_scalar_stock (pid : Nat) :
    ∀ (items : List Item) (ps : Store) (p : Product),
      ps pid = some p → p.trackInventoryBySize = false →
      ∀ ps2, processItems ps items = (none, ps2) →
        ps2 pid = some { p with stock := p.stock - sumReq items pid } ∧
        sumReq items pid ≤ p.stock := by
  intro items
  induction items with
  | nil =>
    intro ps p hps hsc ps2 h
    unfold processItems at h
    simp only [Prod.mk.injEq] at h
    rw [← h.2]
    exact ⟨hps, Nat.zero_le _⟩
  | cons it rest ih =>
    intro ps p hps hsc ps2 h
    unfold processItems at h
    by_cases hit : it.productId = some pid
    · rw [stepItem_hit ps it pid p hps hsc hit] at h
      unfold scalarStep at h
      by_cases hlt : p.stock < reqQty it
      · rw [if_pos hlt] at h
        dsimp only at h
        simp at h
      · rw [if_neg hlt] at h
        dsimp only at h
        have hps1 : (updateStore ps pid { p with stock := p.stock - reqQty it }) pid =
            some { p with stock := p.stock - reqQty it } := by
          simp [updateStore]
        obtain ⟨h1, h2⟩ := ih (updateStore ps pid { p with stock := p.stock - reqQty it })
          { p with stock := p.stock - reqQty it } hps1 hsc ps2 h
        have hsum : sumReq (it :: rest) pid = reqQty it + sumReq rest pid := by
          simp [sumReq, hit]
        constructor
        · rw [hsum, h1]
          simp [Nat.sub_sub]
        · rw [hsum]
          have hle := Nat.not_lt.mp hlt
          simp only at h2
          omega
    · cases hstep : stepItem ps it with
      | error e =>
        rw [hstep] at h
        dsimp only at h
        simp at h
      | ok ps1 =>
        rw [hstep] at h
        dsimp only at h
        have hkeep : ps1 pid = ps pid := stepItem_other ps it pid hit ps1 hstep
        have hps1 : ps1 pid = some p := by rw [hkeep, hps]
        obtain ⟨h1, h2⟩ := ih ps1 p hps1 hsc ps2 h
        have hsum : sumReq (it :: rest) pid = sumReq rest pid := by
          simp [sumReq, hit]
        rw [hsum]
        exact ⟨h1, h2⟩

/-- A failing inventory loop stops at the first failing item: the final
store is exactly the result of processing the prefix before it (so the
failing item itself — and everything after it — mutates nothing), and the
step on that item from that store is the reported error. -/
theorem processItems_fail_split :
    ∀ (items : List Item) (ps : Store) (e : StockErr) (ps2 : Store),
      processItems ps items = (some e, ps2) →
      ∃ k, ∃ hk : k < items.length,
        processItems ps (items.take k) = (none, ps2) ∧
        stepItem ps2 (items.get ⟨k, hk⟩) = .error e := by
  intro items
  induction items with
  | nil =>
    intro ps e ps2 h
    unfold processItems at h
    simp at h
  | cons it rest ih =>
    intro ps e ps2 h
    unfold processItems at h
    cases hstep : stepItem ps it with
    | error e2 =>
      rw [hstep] at h
      dsimp only at h
      simp only [Prod.mk.injEq, Option.some.injEq] at h
      obtain ⟨rfl, rfl⟩ := h
      refine ⟨0, by simp, ?_, ?_⟩
      · simp [processItems]
      · simpa using hstep
    | ok ps1 =>
      rw [hstep] at h
      dsimp only at h
      obtain ⟨k, hk, h1, h2⟩ := ih ps1 e ps2 h
      refine ⟨k + 1, by simpa using hk, ?_, ?_⟩
      · rw [List.take_succ_cons]
        unfold processItems
        rw [hstep]
        exact h1
      · simpa using h2

/-- Inversion of a 409 response of `POST /orders`: the conflict payload is
the inventory-loop error, the returned store keeps the loop's partial
decrements, and no order was persisted. -/
theorem createOrder_conflict_inv (ps : Store) (orders : List Order) (uid : Option Nat)
    (body : CreateBody) (m : String) (iid : Option Nat) (avail : Nat)
    (ps2 : Store) (os2 : List Order)
    (h : createOrder ps orders uid body = (.conflict m iid avail, ps2, os2)) :
    processItems ps body.items = (some ⟨m, iid, avail⟩, ps2) ∧ os2 = orders := by
  unfold createOrder at h
  by_cases h1 : body.items.isEmpty
  · rw [if_pos h1] at h
    simp at h
  · rw [if_neg h1] at h
    by_cases h2 : body.city = "" ∨ body.state = "" ∨ body.pincode = ""
    · rw [if_pos h2] at h
      simp at h
    · rw [if_neg h2] at h
      by_cases h3 : pinOk body.pincode = false
      · rw [if_pos h3] at h
        simp at h
      · rw [if_neg h3] at h
        dsimp only at h
        cases hpi : processItems ps body.items with
        | mk oe ps3 =>
          rw [hpi] at h
          cases oe with
          | some e =>
            dsimp only at h
            simp only [Prod.mk.injEq, CreateRes.conflict.injEq] at h
            obtain ⟨⟨hm, hi, ha⟩, hp, ho⟩ := h
            subst hm
            subst hi
            subst ha
            subst hp
            subst ho
            exact ⟨rfl, rfl⟩
          | none =>
            dsimp only at h
            simp at h

/-- Inversion of a 200 response of `POST /orders`: the inventory loop
succeeded and produced the returned store, and the persisted order is the
document built by the route (with the server-side total and defaulted
financial fields). -/
theorem createOrder_created_inv (ps : Store) (orders : List Order) (uid : Option Nat)
    (body : CreateBody) (o : Order) (ps2 : Store) (os2 : List Order)
    (h : createOrder ps orders uid body = (.created o, ps2, os2)) :
    processItems ps body.items = (none, ps2) ∧
    os2 = orders ++ [o] ∧
    o.total = (match body.total with
      | some t => if 0 < t then t else computedTotal body.items
      | none => computedTotal body.items) ∧
    o.discount = 0 ∧ o.shipping = 0 ∧ o.tax = 0 := by
  unfold createOrder at h
  by_cases h1 : body.items.isEmpty
  · rw [if_pos h1] at h
    simp at h
  · rw [if_neg h1] at h
    by_cases h2 : body.city = "" ∨ body.state = "" ∨ body.pincode = ""
    · rw [if_pos h2] at h
      simp at h
    · rw [if_neg h2] at h
      by_cases h3 : pinOk body.pincode = false
      · rw [if_pos h3] at h
        simp at h
      · rw [if_neg h3] at h
        dsimp only at h
        cases hpi : processItems ps body.items with
        | mk oe ps3 =>
          rw [hpi] at h
          cases oe with
          | some e =>
            dsimp only at h
            simp at h
          | none =>
            dsimp only at h
            simp only [Prod.mk.injEq, CreateRes.created.injEq] at h
            obtain ⟨hdoc, hp, ho⟩ := h
            subst hp
            subst ho
            subst hdoc
            exact ⟨rfl, rfl, rfl, rfl, rfl, rfl⟩

/-! ## Fixtures for order creation (spec §8 scenarios A and B) -/

/-- Scalar product 1: stock 5. -/
def pA : Product :=
  { pid := 1, title := "P1", trackInventoryBySize := false, sizeInventory := [], stock := 5 }

/-- Scalar product 2: stock 2. -/
def pB : Product :=
  { pid := 2, title := "P2", trackInventoryBySize := false, sizeInventory := [], stock := 2 }

/-- A store holding products 1 and 2. -/
def psA : Store := fun n => if n = 1 then some pA else if n = 2 then some pB else none

/-- Scenario A body: qty 3 @ 100 of product 1 and qty 1 @ 50 of product 2,
no client-supplied total. -/
def bodyA : CreateBody :=
  { name := "A", phone := "9", address := "x", city := "Delhi", state := "DL",
    pincode := "110011",
    items := [ { productId := some 1, size := none, qty := 3, price := 100 },
               { productId := some 2, size := none, qty := 1, price := 50 } ],
    total := none, status := none, paymentMethod := "COD" }

/-- The order persisted for `bodyA` (server-computed total 350). -/
def oA : Order :=
  { userId := none, name := "A", phone := "9", address := "x", city := "Delhi",
    state := "DL", pincode := "110011", paymentMethod := "COD",
    items := bodyA.items, total := 350, status := "pending",
    returnStatus := "None", returnReason := "", cancellationReason := "",
    rejectionReason := "", trackingNumber := "", discount := 0, shipping := 0,
    tax := 0 }

/-- A two-item body whose second item over-asks product 2 (qty 5 > stock 2)
after the first item has already decremented product 1. -/
def bodyTwo : CreateBody :=
  { bodyA with
    items := [ { productId := some 1, size := none, qty := 3, price := 100 },
               { productId := some 2, size := none, qty := 5, price := 50 } ] }

/-- A single-item body with `qty = 0` for product 1. -/
def bodyZero : CreateBody :=
  { bodyA with
    items := [ { productId := some 1, size := none, qty := 0, price := 10 } ] }

/-- The order persisted for `bodyZero` (computed total 0). -/
def oZero : Order :=
  { oA with items := bodyZero.items, total := 0 }

/-! ## C1: scalar-stock conservation on order creation -/

/-- C1 counterexample: the claim states that on success, post-order stock
equals pre-order stock minus the sum of the quantities of that product
across the order's items, and that a 409 occurs (only) when an item
requests more than the available stock.  The code computes the requested
quantity as `Number(item.qty || 1)`, so an item with `qty = 0` requests 1:
creating an order with a single qty-0 item for scalar product 1 (stock 5)
succeeds and leaves stock 4, while the sum of quantities is 0 and
5 − 0 = 5 ≠ 4. -/
theorem c1_stock_sum_counterexample :
    (createOrder psA [] none bodyZero).1 = .created oZero ∧
    ((createOrder psA [] none bodyZero).2.1) 1 = some { pA with stock := 4 } ∧
    sumQty bodyZero.items 1 = 0 ∧
    pA.stock - sumQty bodyZero.items 1 ≠ 4 := by
  refine ⟨rfl, rfl, rfl, by decide⟩

/-- C1 (amended): with a line item's requested quantity being its `qty`
when positive and 1 when zero/absent (`Number(item.qty || 1)`), order
creation preserves the scalar-stock invariant.  For every scalar-tracked
product: on success, post-order stock = pre-order stock − the sum of the
requested quantities of that product across the order's items (and that sum
never exceeds the pre-order stock, so stock stays non-negative); and when
createOrder answers 409 blaming that product, there is a failing item
referencing it whose requested quantity exceeds the reported available
quantity, the available quantity is exactly the product's stock at that
point, and no mutation was applied for that line item or any later one —
the final store is exactly the state after the preceding items. -/
theorem c1_scalar_stock_invariant (ps : Store) (orders : List Order)
    (uid : Option Nat) (body : CreateBody) (pid : Nat) (p : Product)
    (hps : ps pid = some p) (hsc : p.trackInventoryBySize = false) :
    (∀ o ps2 os2, createOrder ps orders uid body = (.created o, ps2, os2) →
      ps2 pid = some { p with stock := p.stock - sumReq body.items pid } ∧
      sumReq body.items pid ≤ p.stock) ∧
    (∀ m avail ps2 os2,
      createOrder ps orders uid body = (.conflict m (some pid) avail, ps2, os2) →
      ∃ k, ∃ hk : k < body.items.length,
        (body.items.get ⟨k, hk⟩).productId = some pid ∧
        processItems ps (body.items.take k) = (none, ps2) ∧
        ∃ q, ps2 pid = some q ∧ q.trackInventoryBySize = false ∧
          q.stock = avail ∧ avail < reqQty (body.items.get ⟨k, hk⟩) ∧
          m = "Insufficient stock for " ++ p.title) := by
  constructor
  · intro o ps2 os2 h
    obtain ⟨hpi, -⟩ := createOrder_created_inv ps orders uid body o ps2 os2 h
    exact processItems_scalar_stock pid body.items ps p hps hsc ps2 hpi
  · intro m avail ps2 os2 h
    obtain ⟨hpi, -⟩ := createOrder_conflict_inv ps orders uid body m (some pid) avail ps2 os2 h
    obtain ⟨k, hk, hpre, hstep⟩ :=
      processItems_fail_split body.items ps ⟨m, some pid, avail⟩ ps2 hpi
    obtain ⟨hq, -⟩ := processItems_scalar_stock pid (body.items.take k) ps p hps hsc ps2 hpre
    have hqsc : ({ p with stock := p.stock - sumReq (body.items.take k) pid } :
        Product).trackInventoryBySize = false := hsc
    obtain ⟨hitpid, havail, hlt, hmsg⟩ := stepItem_error_scalar ps2
      (body.items.get ⟨k, hk⟩) pid
      { p with stock := p.stock - sumReq (body.items.take k) pid }
      ⟨m, some pid, avail⟩ hq hqsc hstep rfl
    have h1 : avail = ({ p with stock := p.stock - sumReq (body.items.take k) pid } :
        Product).stock := havail
    refine ⟨k, hk, hitpid, hpre,
      { p with stock := p.stock - sumReq (body.items.take k) pid },
      hq, hqsc, h1.symm, ?_, hmsg⟩
    rw [h1]
    exact hlt

/-- C1 witness: scenario A — creating `bodyA` against stocks 5 and 2
leaves product 1 at 5 − 3 = 2, within the initial stock. -/
theorem c1_witness :
    ((createOrder psA [] none bodyA).2.1) 1 =
      some { pA with stock := pA.stock - sumReq bodyA.items 1 } ∧
    sumReq bodyA.items 1 ≤ pA.stock := by
  exact (c1_scalar_stock_invariant psA [] none bodyA 1 pA rfl rfl).1 oA
    ((createOrder psA [] none bodyA).2.1) ((createOrder psA [] none bodyA).2.2) rfl

/-! ## C2: no compensating rollback on mid-loop failure -/

/-- C2: when `POST /orders` fails with 409 on some line item, no order is
persisted, and the returned product store is exactly the state after
processing the items before the failing one — the decrements already saved
for those earlier items remain committed, with no compensating rollback —
while the failing item is the one whose step from that state raises the
reported error. -/
theorem c2_partial_decrements_committed (ps : Store) (orders : List Order)
    (uid : Option Nat) (body : CreateBody) (m : String) (iid : Option Nat)
    (avail : Nat) (ps2 : Store) (os2 : List Order)
    (h : createOrder ps orders uid body = (.conflict m iid avail, ps2, os2)) :
    os2 = orders ∧
    ∃ k, ∃ hk : k < body.items.length,
      processItems ps (body.items.take k) = (none, ps2) ∧
      stepItem ps2 (body.items.get ⟨k, hk⟩) = .error ⟨m, iid, avail⟩ := by
  obtain ⟨hpi, hos⟩ := createOrder_conflict_inv ps orders uid body m iid avail ps2 os2 h
  exact ⟨hos, processItems_fail_split body.items ps ⟨m, iid, avail⟩ ps2 hpi⟩

/-- C2 witness: `bodyTwo` fails on its second item (product 2: wants 5,
has 2); product 1 stays decremented to 2, product 2 stays at 2, and no
order is persisted. -/
theorem c2_witness :
    ((createOrder psA [] none bodyTwo).2.2 = ([] : List Order) ∧
      ∃ k, ∃ hk : k < bodyTwo.items.length,
        processItems psA (bodyTwo.items.take k) =
          (none, (createOrder psA [] none bodyTwo).2.1) ∧
        stepItem ((createOrder psA [] none bodyTwo).2.1) (bodyTwo.items.get ⟨k, hk⟩) =
          .error ⟨"Insufficient stock for P2", some 2, 2⟩) ∧
    ((createOrder psA [] none bodyTwo).2.1) 1 = some { pA with stock := 2 } ∧
    ((createOrder psA [] none bodyTwo).2.1) 2 = some pB := by
  refine ⟨?_, rfl, rfl⟩
  exact c2_partial_decrements_committed psA [] none bodyTwo
    "Insufficient stock for P2" (some 2) 2
    ((createOrder psA [] none bodyTwo).2.1) ((createOrder psA [] none bodyTwo).2.2) rfl

/-! ## C3: persisted total -/

/-- C3: for every successfully created order, the persisted total is
`Σ(price × qty)` over the line items minus discount plus shipping plus tax
(those three fields being 0 on a freshly created order), unless the client
supplied a positive numeric total, in which case that declared total is
used; a non-positive or absent declared total is ignored. -/
theorem c3_total_computation (ps : Store) (orders : List Order) (uid : Option Nat)
    (body : CreateBody) (o : Order) (ps2 : Store) (os2 : List Order)
    (h : createOrder ps orders uid body = (.created o, ps2, os2)) :
    (∀ t, body.total = some t → 0 < t → o.total = t) ∧
    ((body.total = none ∨ ∃ t, body.total = some t ∧ ¬ 0 < t) →
      o.total = computedTotal body.items - o.discount + o.shipping + o.tax) := by
  obtain ⟨-, -, htot, hd, hs, htax⟩ :=
    createOrder_created_inv ps orders uid body o ps2 os2 h
  constructor
  · intro t ht hpos
    rw [htot, ht]
    simp [hpos]
  · intro hcase
    rw [htot, hd, hs, htax]
    cases hcase with
    | inl hnone =>
      rw [hnone]
      simp
    | inr hex =>
      obtain ⟨t, ht, hnpos⟩ := hex
      rw [ht]
      simp [hnpos]

/-- C3 witness: scenario A — no declared total, so the persisted total is
3·100 + 1·50 = 350 = Σ(price·qty) − 0 + 0 + 0. -/
theorem c3_witness :
    (createOrder psA [] none bodyA).1 = .created oA ∧
    oA.total = computedTotal bodyA.items - oA.discount + oA.shipping + oA.tax := by
  refine ⟨rfl, ?_⟩
  exact (c3_total_computation psA [] none bodyA oA
    ((createOrder psA [] none bodyA).2.1) ((createOrder psA [] none bodyA).2.2) rfl).2
    (Or.inl rfl)

end Uni10
